import Mathlib

/-!
# Verification of the tango transport/proxy layer

A shallow embedding of `src/ophyd_async/tango/_backend/_tango_transport.py`:
the remote-type mapper (`get_pyton_type`), the descriptor builder
(`get_trl_descriptor`), the resource resolver (`get_tango_trl`), the
attribute/command proxy state machines and the `TangoTransport` operations,
together with theorems settling the specification claims about them.

Python exceptions are modelled by an explicit error type; fallible
operations return `Except` (or a result type with an explicit
`cancelled` outcome where cancellation matters).  Calls into the external
tango client library are modelled as parameters (outcomes supplied by the
environment) at the boundary the spec describes.
-/

set_option autoImplicit false

deriving instance DecidableEq for Except

/-- Python exceptions raised by the transport layer.  `TypeError`,
`RuntimeError`, `AssertionError` and `NameError` are the builtin exception
classes; `notConnected` models the `NotConnected(source)` error imported
from the core package. -/
inductive PyErr where
  | typeError (msg : String)
  | runtimeError (msg : String)
  | assertionError (msg : String)
  | nameError (msg : String)
  | valueError (msg : String)
  | notConnected (source : String)
  deriving Repr, DecidableEq

/-- The remote type tags of the external client library (`CmdArgType`),
restricted to the tags the repository's code and tests exercise: every
scalar family, its array forms, and one tag (`DevPipeBlob`) that has no
generic mapping. -/
inductive CmdArgType where
  | DevVoid | DevBoolean | DevShort | DevLong | DevFloat | DevDouble
  | DevUShort | DevULong | DevString
  | DevVarCharArray | DevVarShortArray | DevVarLongArray | DevVarFloatArray
  | DevVarDoubleArray | DevVarUShortArray | DevVarULongArray
  | DevVarStringArray | DevVarBooleanArray | DevVarLong64Array
  | DevVarULong64Array
  | DevState | ConstDevString | DevUChar | DevLong64 | DevULong64
  | DevEncoded | DevEnum | DevPipeBlob
  deriving Repr, DecidableEq, Fintype

namespace CmdArgType

/-- The external library's integer classifier `tango.utils.is_int(t, True)`
(scalar and array signed/unsigned integer tags), as documented by the
repository's own test table for the type mapper. -/
def is_int : CmdArgType → Bool
  | DevShort | DevLong | DevUShort | DevULong | DevLong64 | DevULong64
  | DevVarShortArray | DevVarLongArray | DevVarUShortArray
  | DevVarULongArray | DevVarLong64Array | DevVarULong64Array => true
  | _ => false

/-- The external library's float classifier `tango.utils.is_float(t, True)`. -/
def is_float : CmdArgType → Bool
  | DevFloat | DevDouble | DevVarFloatArray | DevVarDoubleArray => true
  | _ => false

/-- The external library's boolean classifier `tango.utils.is_bool(t, True)`. -/
def is_bool : CmdArgType → Bool
  | DevBoolean | DevVarBooleanArray => true
  | _ => false

/-- The external library's string classifier `tango.utils.is_str(t, True)`. -/
def is_str : CmdArgType → Bool
  | DevString | ConstDevString | DevVarStringArray => true
  | _ => false

/-- The external library's binary classifier `tango.utils.is_binary(t, True)`
(encoded/char-array tags). -/
def is_binary : CmdArgType → Bool
  | DevEncoded | DevVarCharArray => true
  | _ => false

/-- The external library's array classifier `tango.utils.is_array(t)`. -/
def is_array : CmdArgType → Bool
  | DevVarCharArray | DevVarShortArray | DevVarLongArray | DevVarFloatArray
  | DevVarDoubleArray | DevVarUShortArray | DevVarULongArray
  | DevVarStringArray | DevVarBooleanArray | DevVarLong64Array
  | DevVarULong64Array => true
  | _ => false

end CmdArgType

/-- The generic (python-side) element kinds `get_pyton_type` can return:
`int`, `float`, `bool`, `str`, `list[str]`, `Enum`, `CmdArgType.DevState`
and `None`. -/
inductive PyType where
  | int | float | bool | str | listStr | enum | devState | pyNone
  deriving Repr, DecidableEq

open CmdArgType in
/-- Embedding of `get_pyton_type` (lines 66-86 of the source): the chain of
classifier tests, the three tag-equality fallbacks (`DevEnum`, `DevState`,
`DevUChar`), the `DevVoid` case, and `TypeError("Unknown TangoType")` for
everything else.  The first component is `is_array tango_type`, computed
once up front exactly as in the source. -/
def get_pyton_type (tango_type : CmdArgType) :
    Except PyErr (Bool × PyType × String) :=
  let array := is_array tango_type
  if is_int tango_type then .ok (array, .int, "integer")
  else if is_float tango_type then .ok (array, .float, "number")
  else if is_bool tango_type then .ok (array, .bool, "integer")
  else if is_str tango_type then .ok (array, .str, "string")
  else if is_binary tango_type then .ok (array, .listStr, "string")
  else if tango_type = .DevEnum then .ok (array, .enum, "string")
  else if tango_type = .DevState then .ok (array, .devState, "string")
  else if tango_type = .DevUChar then .ok (array, .int, "integer")
  else if tango_type = .DevVoid then .ok (array, .pyNone, "string")
  else .error (.typeError "Unknown TangoType")

open CmdArgType in
/-- The type-mapping table as the spec words it (§4.1): one clause per
family — signed/unsigned integer families (including the unsigned-char
tag) to `(int, "integer")`, float families to `(float, "number")`, boolean
to `(bool, "integer")`, string to `(str, "string")`, binary/encoded to
`(list[str], "string")`, enum / device-state / void to description
`"string"` — with array-ness reported independently of the per-element
kind, and an `UnsupportedType` failure for every tag outside the table. -/
def mapType_spec (t : CmdArgType) : Except PyErr (Bool × PyType × String) :=
  if is_int t ∨ t = .DevUChar then .ok (is_array t, .int, "integer")
  else if is_float t then .ok (is_array t, .float, "number")
  else if is_bool t then .ok (is_array t, .bool, "integer")
  else if is_str t then .ok (is_array t, .str, "string")
  else if is_binary t then .ok (is_array t, .listStr, "string")
  else if t = .DevEnum then .ok (is_array t, .enum, "string")
  else if t = .DevState then .ok (is_array t, .devState, "string")
  else if t = .DevVoid then .ok (is_array t, .pyNone, "string")
  else .error (.typeError "Unknown TangoType")

/-- C3: for every remote type tag the mapper `get_pyton_type` returns
exactly the documented (isArray, scalarKind, description) triple of the
spec's table — integer families to (int, "integer"), float families to
(float, "number"), boolean to (bool, "integer"), string to (str,
"string"), binary/encoded to (list-of-string, "string"), enum /
device-state / void to description "string" — with array-ness reported
independently, and fails with the unsupported-type error for every tag
outside the table. -/
theorem C3_type_mapper_matches_table :
    ∀ t : CmdArgType, get_pyton_type t = mapType_spec t := by
  decide

/-! ## Descriptor builder (`get_trl_descriptor`) -/

/-- The external library's attribute data formats. -/
inductive AttrDataFormat where
  | SCALAR | SPECTRUM | IMAGE
  deriving Repr, DecidableEq

/-- The fields of the external `AttributeInfoEx` config the builder reads:
declared remote type, data format, maximum dimensions and enum labels. -/
structure AttributeInfoEx where
  data_type : CmdArgType
  data_format : AttrDataFormat
  max_dim_x : Nat
  max_dim_y : Nat
  enum_labels : List String
  deriving Repr, DecidableEq

/-- The fields of the external `CommandInfo` config the builder reads:
declared input and output remote types.  A `CommandInfo` has no
`max_dim_x`/`max_dim_y`/`enum_labels` attributes. -/
structure CommandInfo where
  in_type : CmdArgType
  out_type : CmdArgType
  deriving Repr, DecidableEq

/-- A per-locator config is either an `AttributeInfoEx` or a `CommandInfo`
(the source dispatches on `isinstance`). -/
inductive TrConfig where
  | attr (a : AttributeInfoEx)
  | cmd (c : CommandInfo)
  deriving Repr, DecidableEq

/-- A shape entry: a concrete bound (`max_dim_x`/`max_dim_y`) or `np.Inf`,
which the source substitutes when the config has no dimension attributes
(commands). -/
inductive Dim where
  | nat (n : Nat)
  | inf
  deriving Repr, DecidableEq

/-- The descriptor dict built by `get_trl_descriptor`.  `choices` is `some`
exactly when the returned dict carries a `"choices"` key (the enum /
device-state branch). -/
structure Descriptor where
  source : String
  dtype : String
  shape : List Dim
  choices : Option (List String)
  deriving Repr, DecidableEq

/-- The facets of a caller-supplied expected `datatype` that
`get_trl_descriptor` consults, modelled at the boundary: its `__name__`,
the result of `get_dtype_extended` on it (`none` when that returns a
falsy value), whether it is a subclass of `Enum`/`DevState`, its member
names (for enum classes), and the `issubclass(tr_dtype, datatype)` test
of the scalar branch. -/
structure Datatype where
  name : String
  dtypeExtended : Option PyType
  isEnumOrStateSub : Bool
  memberNames : List String
  supertypeOf : PyType → Bool

/-- The fixed, global list of device state names
(`DevState.names.keys()` of the external library). -/
def devStateNames : List String :=
  ["ON", "OFF", "CLOSE", "OPEN", "INSERT", "EXTRACT", "MOVING", "STANDBY",
   "FAULT", "INIT", "RUNNING", "ALARM", "DISABLE", "UNKNOWN"]

/-- The first loop of `get_trl_descriptor` (lines 273-286), for one config:
an attribute contributes `(data_format, dtype, descr)` from its
`data_type`; a command is rejected when its input and output types are
both non-void and differ, and otherwise contributes a format synthesized
from array-ness (`SPECTRUM` if array else `SCALAR`) together with the
mapped type of its input type (or output type when the input is void). -/
def configTriple : TrConfig → Except PyErr (AttrDataFormat × PyType × String)
  | .attr a => do
      let (_, dtype, descr) ← get_pyton_type a.data_type
      pure (a.data_format, dtype, descr)
  | .cmd c =>
      if c.in_type ≠ .DevVoid ∧ c.out_type ≠ .DevVoid ∧
          c.in_type ≠ c.out_type then
        .error (.runtimeError
          "Commands with different in and out dtypes are not supported")
      else do
        let (array, dtype, descr) ← get_pyton_type
          (if c.in_type ≠ .DevVoid then c.in_type else c.out_type)
        pure ((if array then .SPECTRUM else .SCALAR), dtype, descr)

/-- Modelled from the spec: `get_unique` (imported from the core package,
whose source is not part of this repository) — all configs for one
Transport must resolve to the same triple, and a disagreement is a hard
`TypeError`; the single common value is returned. -/
def get_unique (values : List (String × (AttrDataFormat × PyType × String))) :
    Except PyErr (AttrDataFormat × PyType × String) :=
  match values with
  | [] => .error (.typeError "Differing typeids")
  | (_, v) :: rest =>
      if rest.all (fun p => p.2 = v) then .ok v
      else .error (.typeError "Differing typeids")

/-- Embedding of `get_trl_descriptor` (lines 270-327): map every config
through the first loop, force agreement through `get_unique`, read the
dimension / enum metadata off the first config (`np.Inf` and no labels
for commands), then branch on format — SPECTRUM gives
`shape=[max_x]`, IMAGE gives `shape=[max_y, max_x]`, both with dtype
`"array"` and an optional expected-array-type check; the scalar branch
returns dtype `"string"` with `choices` for enum/device-state kinds
(device-state choices being the fixed global state-name list) and
`(dtype := description, shape := [])` for everything else, each with its
optional expected-type check. -/
def get_trl_descriptor (datatype : Option Datatype) (tango_resource : String)
    (tr_configs : List (String × TrConfig)) : Except PyErr Descriptor := do
  let tr_dtype ← tr_configs.mapM
    (fun p => do pure (p.1, ← configTriple p.2))
  let (tr_format, tr_dtype, tr_dtype_desc) ← get_unique tr_dtype
  match tr_configs with
  | [] => .error (.typeError "Differing typeids")
  | (_, trl_config) :: _ =>
    let max_x : Dim := match trl_config with
      | .attr a => .nat a.max_dim_x
      | .cmd _ => .inf
    let max_y : Dim := match trl_config with
      | .attr a => .nat a.max_dim_y
      | .cmd _ => .inf
    let is_attr : Bool := match trl_config with
      | .attr _ => true
      | .cmd _ => false
    let trl_choices : List String := match trl_config with
      | .attr a => a.enum_labels
      | .cmd _ => []
    if tr_format = .SPECTRUM ∨ tr_format = .IMAGE then do
      match datatype with
      | some dt =>
          match dt.dtypeExtended with
          | none => .error (.typeError
              (tango_resource ++ " has expected array type mismatch"))
          | some d =>
              if d ≠ tr_dtype then
                .error (.typeError
                  (tango_resource ++ " has expected array type mismatch"))
              else pure ()
      | none => pure ()
      if tr_format = .SPECTRUM then
        pure { source := tango_resource, dtype := "array",
               shape := [max_x], choices := none }
      else
        pure { source := tango_resource, dtype := "array",
               shape := [max_y, max_x], choices := none }
    else
      if tr_dtype = .enum ∨ tr_dtype = .devState then do
        let trl_choices :=
          if tr_dtype = .devState then devStateNames else trl_choices
        match datatype with
        | some dt => do
            if !dt.isEnumOrStateSub then
              .error (.typeError
                (tango_resource ++ " has type Enum not " ++ dt.name))
            else pure ()
            if tr_dtype = .enum ∧ is_attr then
              if dt.memberNames.toFinset ≠ trl_choices.toFinset then
                .error (.typeError
                  (tango_resource ++ " has differing choices"))
              else pure ()
            else pure ()
        | none => pure ()
        pure { source := tango_resource, dtype := "string", shape := [],
               choices := some trl_choices }
      else do
        match datatype with
        | some dt =>
            if !dt.supertypeOf tr_dtype then
              .error (.typeError
                (tango_resource ++ " has scalar type mismatch with "
                  ++ dt.name))
            else pure ()
        | none => pure ()
        pure { source := tango_resource, dtype := tr_dtype_desc, shape := [],
               choices := none }

/-- Reduction of the builder on a single attribute config with no expected
type: the result is determined by the config's format and the mapped
element kind. -/
theorem get_trl_descriptor_single_attr
    (t : CmdArgType) (f : AttrDataFormat) (mx my : Nat)
    (labels : List String) (name res : String)
    (ar : Bool) (dt : PyType) (ds : String)
    (h : get_pyton_type t = .ok (ar, dt, ds)) :
    get_trl_descriptor none res [(name, .attr ⟨t, f, mx, my, labels⟩)] =
      if f = .SPECTRUM then
        .ok ⟨res, "array", [.nat mx], none⟩
      else if f = .IMAGE then
        .ok ⟨res, "array", [.nat my, .nat mx], none⟩
      else if dt = .enum ∨ dt = .devState then
        .ok ⟨res, "string", [],
          some (if dt = .devState then devStateNames else labels)⟩
      else
        .ok ⟨res, ds, [], none⟩ := by
  simp only [get_trl_descriptor, configTriple, get_unique, List.mapM_cons,
    List.mapM_nil, h, bind_pure_comp, map_pure, List.all_nil, if_pos,
    bind_assoc, pure_bind]
  cases f <;> cases dt <;>
    simp [Bind.bind, Except.bind, pure, Except.pure]

/-- C4: for an attribute config with no expected type, the builder infers
the shape from the data format — scalar gives `shape = []`, spectrum
(1-D) gives `shape = [max_x]`, image (2-D) gives
`shape = [max_y, max_x]` with the row count first; a scalar integer
attribute yields dtype `"integer"` with `shape = []`, and a 2-D array
attribute yields dtype `"array"`. -/
theorem C4_shape_inference
    (t : CmdArgType) (f : AttrDataFormat) (mx my : Nat)
    (labels : List String) (name res : String)
    (ar : Bool) (dt : PyType) (ds : String)
    (h : get_pyton_type t = .ok (ar, dt, ds)) :
    (f = .SPECTRUM →
      get_trl_descriptor none res [(name, .attr ⟨t, f, mx, my, labels⟩)] =
        .ok ⟨res, "array", [.nat mx], none⟩) ∧
    (f = .IMAGE →
      get_trl_descriptor none res [(name, .attr ⟨t, f, mx, my, labels⟩)] =
        .ok ⟨res, "array", [.nat my, .nat mx], none⟩) ∧
    (f = .SCALAR → dt ≠ .enum → dt ≠ .devState →
      get_trl_descriptor none res [(name, .attr ⟨t, f, mx, my, labels⟩)] =
        .ok ⟨res, ds, [], none⟩) ∧
    (f = .SCALAR → dt = .devState →
      get_trl_descriptor none res [(name, .attr ⟨t, f, mx, my, labels⟩)] =
        .ok ⟨res, "string", [], some devStateNames⟩) ∧
    (f = .SCALAR → dt = .enum →
      get_trl_descriptor none res [(name, .attr ⟨t, f, mx, my, labels⟩)] =
        .ok ⟨res, "string", [], some labels⟩) ∧
    (f = .SCALAR → t.is_int = true →
      get_trl_descriptor none res [(name, .attr ⟨t, f, mx, my, labels⟩)] =
        .ok ⟨res, "integer", [], none⟩) := by
  have hred := get_trl_descriptor_single_attr t f mx my labels name res
    ar dt ds h
  refine ⟨?_, ?_, ?_, ?_, ?_, ?_⟩
  · rintro rfl; simpa using hred
  · rintro rfl; simpa using hred
  · rintro rfl h1 h2; rw [hred]; simp [h1, h2]
  · rintro rfl rfl; rw [hred]; simp
  · rintro rfl rfl; rw [hred]; simp
  · rintro rfl hint
    have hg : get_pyton_type t = .ok (t.is_array, .int, "integer") := by
      simp [get_pyton_type, hint]
    rw [h] at hg
    obtain ⟨-, h2, h3⟩ := by
      simpa using hg
    subst h2
    subst h3
    rw [hred]
    simp

/-- Closed witness for C4: a 2×3 image-format double attribute with no
expected type yields `{source, dtype := "array", shape := [2, 3]}`, and a
scalar long attribute yields `{source, dtype := "integer", shape := []}`. -/
theorem C4_shape_inference_witness :
    get_trl_descriptor none "test/device/1/array"
        [("array", .attr ⟨.DevDouble, .IMAGE, 3, 2, []⟩)] =
      .ok ⟨"test/device/1/array", "array", [.nat 2, .nat 3], none⟩ ∧
    get_trl_descriptor none "test/device/1/justvalue"
        [("justvalue", .attr ⟨.DevLong, .SCALAR, 0, 0, []⟩)] =
      .ok ⟨"test/device/1/justvalue", "integer", [], none⟩ := by
  constructor
  · exact (C4_shape_inference .DevDouble .IMAGE 3 2 [] "array"
      "test/device/1/array" false .float "number" (by decide)).2.1 rfl
  · exact (C4_shape_inference .DevLong .SCALAR 0 0 [] "justvalue"
      "test/device/1/justvalue" false .int "integer"
      (by decide)).2.2.2.2.2 rfl (by decide)

/-- C5 counterexample: a command config whose input type (`DevVoid`) and
output type (`DevLong`) differ does NOT make the builder fail — it
succeeds with an integer scalar descriptor, because the source only
rejects the mismatch when both types are non-void. -/
theorem C5_counterexample :
    CommandInfo.in_type ⟨.DevVoid, .DevLong⟩ ≠
        CommandInfo.out_type ⟨.DevVoid, .DevLong⟩ ∧
    get_trl_descriptor none "test/device/1/cmd"
        [("cmd", .cmd ⟨.DevVoid, .DevLong⟩)] =
      .ok ⟨"test/device/1/cmd", "integer", [], none⟩ := by
  decide

/-- C5 (amended): for every command config whose input and output remote
types are both non-void and differ, the builder fails with the
type-mismatch error. -/
theorem C5_amended_mismatch (c : CommandInfo) (name res : String)
    (h1 : c.in_type ≠ .DevVoid) (h2 : c.out_type ≠ .DevVoid)
    (h3 : c.in_type ≠ c.out_type) :
    get_trl_descriptor none res [(name, .cmd c)] =
      .error (.runtimeError
        "Commands with different in and out dtypes are not supported") := by
  simp only [get_trl_descriptor, configTriple, List.mapM_cons, List.mapM_nil,
    bind_pure_comp, map_pure, bind_assoc, pure_bind]
  simp [h1, h2, h3, Bind.bind, Except.bind]

/-- Closed witness for C5's amended statement: a `DevLong → DevDouble`
command is rejected. -/
theorem C5_amended_mismatch_witness :
    get_trl_descriptor none "test/device/1/cmd"
        [("cmd", .cmd ⟨.DevLong, .DevDouble⟩)] =
      .error (.runtimeError
        "Commands with different in and out dtypes are not supported") :=
  C5_amended_mismatch ⟨.DevLong, .DevDouble⟩ "cmd" "test/device/1/cmd"
    (by decide) (by decide) (by decide)

/-! ## Resource resolver (`get_tango_trl`) -/

/-- The introspection surface of a connected `DeviceProxy` the resolver
consults: the device's attribute, command and pipe name lists, and its
name. -/
structure DeviceLists where
  attributes : List String
  commands : List String
  pipes : List String
  devName : String
  deriving Repr, DecidableEq

/-- The proxy object `get_tango_trl` constructs: `AttributeProxy(dp, name)`
or `CommandProxy(dp, name)`. -/
inductive ResolvedProxy where
  | attributeProxy (dp : DeviceLists) (name : String)
  | commandProxy (dp : DeviceLists) (name : String)
  deriving Repr, DecidableEq

/-- Split a character list at its LAST occurrence of `sep`, returning the
part before and the part after; `none` when `sep` does not occur. -/
def rsplitChar (sep : Char) : List Char → Option (List Char × List Char)
  | [] => none
  | c :: cs =>
    match rsplitChar sep cs with
    | some (front, last) => some (c :: front, last)
    | none => if c = sep then some ([], cs) else none

/-- Python's `s.rsplit('/', 1)` unpacked into two names: splits at the
last `'/'`; with no `'/'` present the two-variable unpacking raises
`ValueError`. -/
def rsplit_slash (s : String) : Option (String × String) :=
  match rsplitChar '/' s.data with
  | none => none
  | some (front, last) => some (String.mk front, String.mk last)

open CmdArgType in
/-- Embedding of `get_tango_trl` (lines 331-341): split the locator, use
the supplied device proxy or connect a fresh one (`connect` models the
external `DeviceProxy` constructor), then check the attribute list, the
command list and the pipe list in that order.  The pipe branch executes
`raise NotImplemented("Pipes are not supported")`: `NotImplemented` is
the builtin singleton, not an exception class, so calling it raises
`TypeError` ("'NotImplementedType' object is not callable") and the
intended message is lost.  A member absent from all three lists raises
`RuntimeError`. -/
def get_tango_trl (connect : String → DeviceLists) (full_trl : String)
    (device_proxy : Option DeviceLists) : Except PyErr ResolvedProxy :=
  match rsplit_slash full_trl with
  | none => .error (.valueError
      "not enough values to unpack (expected 2, got 1)")
  | some (device_trl, trl_name) =>
    let dp := match device_proxy with
      | some d => d
      | none => connect device_trl
    if trl_name ∈ dp.attributes then
      .ok (.attributeProxy dp trl_name)
    else if trl_name ∈ dp.commands then
      .ok (.commandProxy dp trl_name)
    else if trl_name ∈ dp.pipes then
      .error (.typeError "NotImplementedType object is not callable")
    else
      .error (.runtimeError
        (trl_name ++ " cannot be found in " ++ dp.devName))

/-- A concrete device for exercising the resolver: one attribute, one
command, one pipe, and one name listed both as attribute and command. -/
def demoDevice : DeviceLists :=
  { attributes := ["attr1", "both"]
    commands := ["cmd1", "both"]
    pipes := ["pipe1"]
    devName := "test/device/1" }

/-- C6, settled at concrete inputs on `demoDevice`: the resolver checks
the attribute list, then the command list, then the pipe list, first
match winning (the name listed in both attribute and command lists
resolves to the Attribute variant); an absent member fails with the
not-found error; but a member present only in the pipe list does NOT
fail with an Unsupported error — the `raise NotImplemented(...)` slip
makes Python raise `TypeError` from calling the non-callable
`NotImplemented` singleton, losing the "Pipes are not supported"
message. -/
theorem C6_resolution_order_and_pipe_bug :
    get_tango_trl (fun _ => demoDevice) "test/device/1/attr1"
        (some demoDevice) = .ok (.attributeProxy demoDevice "attr1") ∧
    get_tango_trl (fun _ => demoDevice) "test/device/1/cmd1"
        (some demoDevice) = .ok (.commandProxy demoDevice "cmd1") ∧
    get_tango_trl (fun _ => demoDevice) "test/device/1/both"
        (some demoDevice) = .ok (.attributeProxy demoDevice "both") ∧
    get_tango_trl (fun _ => demoDevice) "test/device/1/missing"
        (some demoDevice) =
      .error (.runtimeError "missing cannot be found in test/device/1") ∧
    get_tango_trl (fun _ => demoDevice) "test/device/1/pipe1"
        (some demoDevice) =
      .error (.typeError "NotImplementedType object is not callable") := by
  refine ⟨?_, ?_, ?_, ?_, ?_⟩ <;> decide

/-! ## Transport construction and the per-locator connect step -/

/-- Outcome of one awaited call into the external library: it returns a
value, raises an exception, or is cancelled mid-flight
(`CancelledError`). -/
inductive StepOutcome (α : Type) where
  | ok (a : α)
  | raised (e : PyErr)
  | cancelled

/-- Result of running one of the transport's coroutines: a value, a
raised exception, or an escaped (uncaught) cancellation. -/
inductive PyResult (α : Type) where
  | ok (a : α)
  | raised (e : PyErr)
  | cancelled

/-- A value stored in the transport's per-locator `proxies` dict: the raw
device handle (possibly `None`) stored by `__init__`, or the resolved
endpoint proxy stored by `_connect_and_store_config`. -/
inductive ProxySlot where
  | raw (d : Option DeviceLists)
  | resolved (p : ResolvedProxy)

/-- Python dict assignment `d[k] = v`: replaces in place when the key
exists (insertion order preserved), appends otherwise. -/
def dictSet {α : Type} : List (String × α) → String → α → List (String × α)
  | [], k, v => [(k, v)]
  | (k', v') :: rest, k, v =>
      if k' = k then (k, v) :: rest else (k', v') :: dictSet rest k v

/-- The `TangoTransport` state the connect step manipulates. -/
structure TangoTransport where
  datatype : Option Datatype
  read_trl : String
  write_trl : String
  proxies : List (String × ProxySlot)
  trl_configs : List (String × TrConfig)
  source : String
  descriptor : Option Descriptor

/-- Embedding of `TangoTransport.__init__` (lines 347-358): both locators
map to the supplied device handle, `trl_configs` starts empty, `source`
is the read locator, and the descriptor starts empty. -/
def TangoTransport.init (datatype : Option Datatype)
    (read_trl write_trl : String) (device_proxy : Option DeviceLists) :
    TangoTransport :=
  { datatype := datatype
    read_trl := read_trl
    write_trl := write_trl
    proxies := dictSet (dictSet [] read_trl (.raw device_proxy)) write_trl
      (.raw device_proxy)
    trl_configs := []
    source := read_trl
    descriptor := none }

/-- Embedding of `TangoTransport._connect_and_store_config` (lines
361-366): resolve the locator, store the proxy, fetch and store its
config; a `CancelledError` raised by either awaited step is caught and
re-raised as `NotConnected(self.source)`; any other exception
propagates unchanged.  The two awaited calls are modelled by their
outcomes. -/
def connect_and_store_config (t : TangoTransport) (trl : String)
    (resolveOutcome : StepOutcome ResolvedProxy)
    (configOutcome : StepOutcome TrConfig) : PyResult TangoTransport :=
  match resolveOutcome with
  | .cancelled => .raised (.notConnected t.source)
  | .raised e => .raised e
  | .ok p =>
    let t := { t with proxies := dictSet t.proxies trl (.resolved p) }
    match configOutcome with
    | .cancelled => .raised (.notConnected t.source)
    | .raised e => .raised e
    | .ok cfg => .ok { t with trl_configs := dictSet t.trl_configs trl cfg }

/-- C2: when either awaited part of the per-locator connect step is
cancelled mid-flight, the step fails with `NotConnected` carrying the
read-side locator (the transport's `source`), and no run of the step
ever lets a raw cancellation escape to the caller. -/
theorem C2_cancel_becomes_not_connected (dt : Option Datatype)
    (r w trl : String) (dp : Option DeviceLists)
    (ro : StepOutcome ResolvedProxy) (co : StepOutcome TrConfig)
    (h : ro = .cancelled ∨ ∃ p, ro = .ok p ∧ co = .cancelled) :
    connect_and_store_config (TangoTransport.init dt r w dp) trl ro co =
      .raised (.notConnected r) ∧
    ∀ (ro' : StepOutcome ResolvedProxy) (co' : StepOutcome TrConfig),
      connect_and_store_config (TangoTransport.init dt r w dp) trl ro' co' ≠
        .cancelled := by
  constructor
  · rcases h with rfl | ⟨p, rfl, rfl⟩ <;>
      simp [connect_and_store_config, TangoTransport.init]
  · intro ro' co'
    cases ro' <;> cases co' <;> simp [connect_and_store_config]

/-- Closed witness for C2: a transport on `a/dev/x` whose resolve step is
cancelled fails with `NotConnected "a/dev/x"`. -/
theorem C2_cancel_becomes_not_connected_witness :
    connect_and_store_config
        (TangoTransport.init none "a/dev/x" "a/dev/x" none) "a/dev/x"
        .cancelled (.ok (.cmd ⟨.DevVoid, .DevVoid⟩)) =
      .raised (.notConnected "a/dev/x") ∧
    ∀ (ro' : StepOutcome ResolvedProxy) (co' : StepOutcome TrConfig),
      connect_and_store_config
          (TangoTransport.init none "a/dev/x" "a/dev/x" none) "a/dev/x"
          ro' co' ≠ .cancelled :=
  C2_cancel_becomes_not_connected none "a/dev/x" "a/dev/x" "a/dev/x" none
    .cancelled (.ok (.cmd ⟨.DevVoid, .DevVoid⟩)) (Or.inl rfl)

/-! ## Attribute proxy subscription state -/

/-- The subscription state of an `AttributeProxy`: the CHANGE-event
subscription id `_eid` and the stored user callback `_event_callback`
(both `None` initially; callbacks are modelled as opaque tokens). -/
structure AttrProxyState where
  eid : Option Nat
  event_callback : Option Nat
  deriving Repr, DecidableEq

/-- Python truthiness of an optional integer (`None` and `0` are falsy),
as used by `bool(self._eid)`, `if not self._eid` and `if self._eid`. -/
def truthyNum : Option Nat → Bool
  | none => false
  | some n => n ≠ 0

/-- Embedding of `AttributeProxy.has_subscription` (lines 190-191):
`bool(self._eid)`. -/
def AttributeProxy.has_subscription (s : AttrProxyState) : Bool :=
  truthyNum s.eid

/-- Embedding of `AttributeProxy.subscribe_callback` (lines 194-199):
store the callback, then, only when no truthy `_eid` is held, open a new
CHANGE-event subscription whose id (returned by the external
`subscribe_event`) becomes `_eid`. -/
def AttributeProxy.subscribe_callback (newEid : Nat) (callback : Option Nat)
    (s : AttrProxyState) : AttrProxyState :=
  let s := { s with event_callback := callback }
  if !truthyNum s.eid then { s with eid := some newEid } else s

/-- Embedding of `AttributeProxy.unsubscribe_callback` (lines 202-206):
when a truthy `_eid` is held, unsubscribe it (external call) and reset
`_eid` to `None`; always clear the stored callback. -/
def AttributeProxy.unsubscribe_callback (s : AttrProxyState) :
    AttrProxyState :=
  let s := if truthyNum s.eid then { s with eid := none } else s
  { s with event_callback := none }

/-- C9: on an attribute proxy that already holds a subscription handle,
`subscribe_callback` swaps the stored callback without opening a second
subscription — the handle is unchanged and `has_subscription` stays true
— while `unsubscribe_callback` resets the handle, clears the stored
callback and makes `has_subscription` false; when no handle is held,
`unsubscribe_callback` leaves the handle untouched (still clearing the
callback, with `has_subscription` false afterwards). -/
theorem C9_subscribe_swaps_without_resubscribing
    (s : AttrProxyState) (newEid cb : Nat)
    (h : AttributeProxy.has_subscription s = true) :
    (AttributeProxy.subscribe_callback newEid (some cb) s).eid = s.eid ∧
    (AttributeProxy.subscribe_callback newEid (some cb) s).event_callback =
      some cb ∧
    AttributeProxy.has_subscription
      (AttributeProxy.subscribe_callback newEid (some cb) s) = true ∧
    (AttributeProxy.unsubscribe_callback s).eid = none ∧
    (AttributeProxy.unsubscribe_callback s).event_callback = none ∧
    AttributeProxy.has_subscription
      (AttributeProxy.unsubscribe_callback s) = false ∧
    ∀ s2 : AttrProxyState, AttributeProxy.has_subscription s2 = false →
      (AttributeProxy.unsubscribe_callback s2).eid = s2.eid ∧
      (AttributeProxy.unsubscribe_callback s2).event_callback = none ∧
      AttributeProxy.has_subscription
        (AttributeProxy.unsubscribe_callback s2) = false := by
  have h' : truthyNum s.eid = true := h
  refine ⟨?_, ?_, ?_, ?_, ?_, ?_, ?_⟩
  · simp [AttributeProxy.subscribe_callback, h']
  · simp [AttributeProxy.subscribe_callback, h']
  · simp [AttributeProxy.has_subscription,
      AttributeProxy.subscribe_callback, h']
  · simp [AttributeProxy.unsubscribe_callback, h']
  · simp [AttributeProxy.unsubscribe_callback, h']
  · have hs : AttributeProxy.unsubscribe_callback s =
        { eid := none, event_callback := none } := by
      simp [AttributeProxy.unsubscribe_callback, h']
    rw [hs]
    rfl
  · intro s2 h2
    have h2' : truthyNum s2.eid = false := h2
    refine ⟨?_, ?_, ?_⟩ <;>
      simp [AttributeProxy.has_subscription,
        AttributeProxy.unsubscribe_callback, h2']

/-- Closed witness for C9: a proxy holding handle 5 keeps it across a
callback swap, and unsubscribing releases it. -/
theorem C9_subscribe_swaps_without_resubscribing_witness :
    (AttributeProxy.subscribe_callback 7 (some 2) ⟨some 5, some 1⟩).eid =
      (⟨some 5, some 1⟩ : AttrProxyState).eid ∧
    (AttributeProxy.subscribe_callback 7 (some 2)
      ⟨some 5, some 1⟩).event_callback = some 2 ∧
    AttributeProxy.has_subscription
      (AttributeProxy.subscribe_callback 7 (some 2) ⟨some 5, some 1⟩) =
        true ∧
    (AttributeProxy.unsubscribe_callback ⟨some 5, some 1⟩).eid = none ∧
    (AttributeProxy.unsubscribe_callback ⟨some 5, some 1⟩).event_callback =
      none ∧
    AttributeProxy.has_subscription
      (AttributeProxy.unsubscribe_callback ⟨some 5, some 1⟩) = false ∧
    ∀ s2 : AttrProxyState, AttributeProxy.has_subscription s2 = false →
      (AttributeProxy.unsubscribe_callback s2).eid = s2.eid ∧
      (AttributeProxy.unsubscribe_callback s2).event_callback = none ∧
      AttributeProxy.has_subscription
        (AttributeProxy.unsubscribe_callback s2) = false :=
  C9_subscribe_swaps_without_resubscribing ⟨some 5, some 1⟩ 7 2 (by decide)

/-! ## Transport `set_callback` -/

/-- Endpoint-proxy state as the transport's `set_callback` sees it: an
attribute proxy (class attribute `support_events = True`) with its
subscription state, or a command proxy (`support_events = False`). -/
inductive ProxyState where
  | attr (s : AttrProxyState)
  | cmd
  deriving Repr, DecidableEq

/-- The `support_events` class attribute consulted by the transport. -/
def ProxyState.support_events : ProxyState → Bool
  | .attr _ => true
  | .cmd => false

/-- `has_subscription()` through the proxy interface; on a command proxy
the base-class method body is empty, so the call returns `None`
(falsy). -/
def ProxyState.has_subscription : ProxyState → Bool
  | .attr s => AttributeProxy.has_subscription s
  | .cmd => false

/-- Embedding of `TangoTransport.set_callback` (lines 402-414), acting on
the read-side proxy's state.  Returns the exception raised (if any)
together with the proxy state after the call: the two `assert` failures
happen before any mutation; a `subscribe_event` rejection (modelled by
`subscribeResult`) is converted into the non-cached `RuntimeError`, with
the partially-mutated state (`_event_callback` was already assigned)
kept, as in the source; a `None` callback unsubscribes.  The command
branches after the first assert are unreachable, since commands do not
support events. -/
def TangoTransport.set_callback (source read_trl : String) (p : ProxyState)
    (callback : Option Nat) (subscribeResult : Except PyErr Nat) :
    Option PyErr × ProxyState :=
  if !p.support_events then
    (some (.assertionError (source ++ " does not support events")), p)
  else
    match callback with
    | some cb =>
        if p.has_subscription then
          (some (.assertionError
            "Cannot set a callback when one is already set"), p)
        else
          match p with
          | .attr s =>
              match subscribeResult with
              | .ok newEid =>
                  (none,
                   .attr (AttributeProxy.subscribe_callback newEid
                     (some cb) s))
              | .error _ =>
                  (some (.runtimeError ("Cannot set event for " ++ read_trl
                      ++ ". This signal should be used only as non-cached!")),
                   .attr { s with event_callback := some cb })
          | .cmd => (none, .cmd)
    | none =>
        match p with
        | .attr s => (none, .attr (AttributeProxy.unsubscribe_callback s))
        | .cmd => (none, .cmd)

/-- C7: `set_callback` with a callback fails with the does-not-support-
events assertion when the read-side proxy does not support events, and
with the already-set assertion when a callback is already active; in both
failure cases the proxy's subscription state (handle and stored
callback) is returned unchanged; passing `None` on an event-supporting
proxy unsubscribes. -/
theorem C7_set_callback_failures_leave_state
    (src rtrl : String) (p : ProxyState) (cb : Nat)
    (sr : Except PyErr Nat) :
    (p.support_events = false →
      TangoTransport.set_callback src rtrl p (some cb) sr =
        (some (.assertionError (src ++ " does not support events")), p)) ∧
    (p.support_events = true → p.has_subscription = true →
      TangoTransport.set_callback src rtrl p (some cb) sr =
        (some (.assertionError
          "Cannot set a callback when one is already set"), p)) ∧
    (∀ s : AttrProxyState,
      TangoTransport.set_callback src rtrl (.attr s) none sr =
        (none, .attr (AttributeProxy.unsubscribe_callback s))) := by
  refine ⟨?_, ?_, ?_⟩
  · intro h
    simp [TangoTransport.set_callback, h]
  · intro h1 h2
    cases p with
    | attr s => simp [TangoTransport.set_callback, ProxyState.support_events,
        h2]
    | cmd => simp [ProxyState.support_events] at h1
  · intro s
    simp [TangoTransport.set_callback, ProxyState.support_events]

/-- Closed witness for C7: the command proxy fails the events assertion
with state unchanged; a subscribed attribute proxy fails the already-set
assertion with state unchanged; `None` unsubscribes. -/
theorem C7_set_callback_failures_leave_state_witness :
    TangoTransport.set_callback "a/dev/x" "a/dev/x" .cmd (some 1)
        (.ok 9) =
      (some (.assertionError "a/dev/x does not support events"), .cmd) ∧
    TangoTransport.set_callback "a/dev/x" "a/dev/x"
        (.attr ⟨some 5, some 1⟩) (some 2) (.ok 9) =
      (some (.assertionError "Cannot set a callback when one is already set"),
       .attr ⟨some 5, some 1⟩) ∧
    TangoTransport.set_callback "a/dev/x" "a/dev/x"
        (.attr ⟨some 5, some 1⟩) none (.ok 9) =
      (none, .attr (AttributeProxy.unsubscribe_callback ⟨some 5, some 1⟩)) :=
  ⟨(C7_set_callback_failures_leave_state "a/dev/x" "a/dev/x" .cmd 1
      (.ok 9)).1 rfl,
   (C7_set_callback_failures_leave_state "a/dev/x" "a/dev/x"
      (.attr ⟨some 5, some 1⟩) 2 (.ok 9)).2.1 rfl (by decide),
   (C7_set_callback_failures_leave_state "a/dev/x" "a/dev/x"
      (.attr ⟨some 5, some 1⟩) 2 (.ok 9)).2.2 ⟨some 5, some 1⟩⟩

/-! ## Command proxy cache and the async-put reply-polling loop -/

/-- The cached `_last_reading` triple of a `CommandProxy`, generic in the
value type: value (`None` before any put), timestamp, and the quality
constant (`0` is the external library's `ATTR_VALID` quality). -/
structure CmdReading (V : Type) where
  value : Option V
  timestamp : Nat
  alarm_severity : Nat
  deriving Repr, DecidableEq

/-- The class-level initial `_last_reading` (line 223):
`dict(value=None, timestamp=0, alarm_severity=0)`. -/
def CmdReading.initial (V : Type) : CmdReading V :=
  { value := none, timestamp := 0, alarm_severity := 0 }

/-- Embedding of `CommandProxy.get` (lines 226-227): returns the cached
last reading's value. -/
def CommandProxy.get {V : Type} (last_reading : CmdReading V) : Option V :=
  last_reading.value

/-- Embedding of `CommandProxy.get_reading` (lines 254-255): returns the
cached last-reading triple itself. -/
def CommandProxy.get_reading {V : Type} (last_reading : CmdReading V) :
    CmdReading V :=
  last_reading

/-- Outcome of one evaluation of the `try` body of the reply-polling
loop: the reply call returns a value, or an exception is raised. -/
inductive TryOutcome (V : Type) where
  | success (v : V)
  | exn (e : PyErr)

/-- Result of running the reply-polling loop for a bounded number of
iterations: it returned a reply value, or it is still looping. -/
inductive PollResult (V : Type) where
  | finished (v : V)
  | stillLooping
  deriving Repr, DecidableEq

/-- The reply-polling loop shared by the two async-put paths (lines
165-171 and 237-244): evaluate the `try` body; on success set `finished`
and leave the loop; on ANY exception sleep `A_BIT` and retry.  The loop
reads no clock and has no timeout exit.  `attempt n` is the outcome of
the n-th evaluation of the try body; the fuel argument is the number of
iterations observed. -/
def pollReplyLoop {V : Type} (attempt : Nat → TryOutcome V) :
    Nat → PollResult V
  | 0 => .stillLooping
  | n + 1 =>
      match attempt 0 with
      | .success v => .finished v
      | .exn _ => pollReplyLoop (fun k => attempt (k + 1)) n

/-- The try body `val = await dev.write_attribute_reply(rid)` /
`val = await dev.command_inout_reply(rid)`: the name `dev` is bound
nowhere in the module, so every evaluation raises `NameError` before any
reply check can happen. -/
def replyAttempt (V : Type) : TryOutcome V :=
  .exn (.nameError "name dev is not defined")

/-- The reply-polling loop over the actual try body never returns,
whatever the fuel: every attempt raises `NameError` on the unbound
`dev`, which the bare `except` swallows before retrying. -/
theorem pollReplyLoop_dev_unbound_stillLooping (V : Type) :
    ∀ fuel : Nat,
      pollReplyLoop (fun _ => replyAttempt V) fuel = .stillLooping
  | 0 => rfl
  | n + 1 => by
      simpa [pollReplyLoop, replyAttempt] using
        pollReplyLoop_dev_unbound_stillLooping V n

/-- Observable outcome of an attribute `put` call: the call returned, or
the reply-polling loop is still running after the given number of
iterations. -/
inductive AttrPutResult where
  | done
  | stillRunning
  deriving Repr, DecidableEq

/-- Embedding of `AttributeProxy.put` (lines 159-171): a waited put is a
synchronous `write_attribute` of `value`; an unwaited put issues
`write_attribute_asynch` and, when `timeout` is truthy, enters the
reply-polling loop over the actual try body. -/
def AttributeProxy.put (V : Type) (value : Option V) (wait : Bool)
    (timeout : Option Nat) (fuel : Nat) : AttrPutResult :=
  if wait then .done
  else if truthyNum timeout then
    match pollReplyLoop (fun _ => replyAttempt (Option V)) fuel with
    | .finished _ => .done
    | .stillLooping => .stillRunning
  else .done

/-- Observable outcome of a command `put` call: the call returned with
the new `_last_reading` (recording whether a remote invocation was
issued and whether an async reply was ever collected), or the
reply-polling loop is still running after the given number of
iterations. -/
inductive CmdPutResult (V : Type) where
  | done (last_reading : CmdReading V) (invoked : Bool)
      (replyCollected : Bool)
  | stillRunning
  deriving Repr, DecidableEq

/-- Embedding of `CommandProxy.put` (lines 231-246): a waited put stores
the value returned by `command_inout` (modelled by `syncReturn`); an
unwaited put sets `val = None`, issues `command_inout_asynch`, runs the
reply-polling loop over the actual try body when `timeout` is truthy,
and finally overwrites `_last_reading` with
`dict(value=val, timestamp=time.time(), alarm_severity=0)`. -/
def CommandProxy.put (V : Type) (value : Option V) (wait : Bool)
    (timeout : Option Nat) (syncReturn : Option V) (now : Nat)
    (fuel : Nat) : CmdPutResult V :=
  if wait then
    .done { value := syncReturn, timestamp := now, alarm_severity := 0 }
      true false
  else if truthyNum timeout then
    match pollReplyLoop (fun _ => replyAttempt (Option V)) fuel with
    | .finished v =>
        .done { value := v, timestamp := now, alarm_severity := 0 }
          true true
    | .stillLooping => .stillRunning
  else
    .done { value := none, timestamp := now, alarm_severity := 0 }
      true false

/-- C1: on either proxy variant, `put(value, wait=False, timeout=t)` with
a truthy `t` enters the reply-polling loop and never returns, however
many iterations are run: every reply attempt evaluates the unbound name
`dev` and raises `NameError`, the bare `except` swallows it and
re-sleeps, and no iteration compares elapsed time against `t` — so the
loop neither terminates when the timeout elapses nor surfaces any
timeout failure to the caller. -/
theorem C1_async_put_ignores_timeout (V : Type) (value syncReturn : Option V)
    (t : Option Nat) (now fuel : Nat)
    (h : truthyNum t = true) :
    AttributeProxy.put V value false t fuel = .stillRunning ∧
    CommandProxy.put V value false t syncReturn now fuel = .stillRunning := by
  constructor
  · simp [AttributeProxy.put, h, pollReplyLoop_dev_unbound_stillLooping]
  · simp [CommandProxy.put, h, pollReplyLoop_dev_unbound_stillLooping]

/-- Closed witness for C1: an async put with timeout 1 is still inside
the loop after 1000 iterations, on both variants. -/
theorem C1_async_put_ignores_timeout_witness :
    AttributeProxy.put Int (some 3) false (some 1) 1000 = .stillRunning ∧
    CommandProxy.put Int (some 3) false (some 1) (some 7) 42 1000 =
      .stillRunning :=
  C1_async_put_ignores_timeout Int (some 3) (some 7) (some 1) 42 1000
    (by decide)

/-- C8: before any put the cached command reading has an absent value;
`get` returns the cached last reading's value; and a completed waited
`put(x)` overwrites the cached triple with the server's return value,
the completion time and the valid quality constant `0`, which
`get_reading` then reports. -/
theorem C8_command_cached_reading (V : Type) (lr : CmdReading V)
    (value syncReturn : Option V) (t : Option Nat) (now fuel : Nat) :
    CommandProxy.get (CmdReading.initial V) = none ∧
    CommandProxy.get_reading (CmdReading.initial V) =
      { value := none, timestamp := 0, alarm_severity := 0 } ∧
    CommandProxy.get lr = lr.value ∧
    CommandProxy.put V value true t syncReturn now fuel =
      .done { value := syncReturn, timestamp := now, alarm_severity := 0 }
        true false ∧
    CommandProxy.get_reading
        { value := syncReturn, timestamp := now, alarm_severity := 0 } =
      { value := syncReturn, timestamp := now, alarm_severity := 0 } := by
  refine ⟨rfl, rfl, rfl, ?_, rfl⟩
  simp [CommandProxy.put]

/-- C10: `put(value, wait=False)` with no timeout issues the remote
invocation but never collects its reply, and overwrites the cached
triple with value `None`, so a subsequent `get` / `get_reading` reports
`None` rather than the command's return value. -/
theorem C10_async_put_caches_none (V : Type) (value syncReturn : Option V)
    (now fuel : Nat) :
    CommandProxy.put V value false none syncReturn now fuel =
      .done { value := none, timestamp := now, alarm_severity := 0 }
        true false ∧
    CommandProxy.get
        ({ value := none, timestamp := now, alarm_severity := 0 } :
          CmdReading V) = none ∧
    CommandProxy.get_reading
        ({ value := none, timestamp := now, alarm_severity := 0 } :
          CmdReading V) =
      { value := none, timestamp := now, alarm_severity := 0 } := by
  refine ⟨?_, rfl, rfl⟩
  simp [CommandProxy.put, truthyNum]
